import Mathlib

/-!
Verification development for the AWS virtual-tape cleanup repository.

The repository is a batch cleanup tool over AWS Storage Gateway virtual
tapes.  This file gives a shallow embedding of the parts of the code the
claims are about:

* the error classification and the two retry wrappers
  (`VirtualTapeManager._handle_aws_error`, `VirtualTapeManager._retry_with_backoff`
  in delete_expired_virtual_tapes.py and `TapeManager._retry_api_call` in
  tape_manager.py);
* the expiry classifier (`VirtualTapeManager.is_tape_expired`);
* the gateway enumeration probe of `VirtualTapeManager.get_tape_details`;
* the orchestration methods `VirtualTapeManager.delete_expired_tapes`,
  `VirtualTapeManager.delete_specific_tapes`, `VirtualTapeManager.delete_virtual_tape`;
* the simplified pipeline in tape_operations.py (`delete_expired_tapes`)
  built on `TapeManager.list_tapes` / `TapeManager.delete_tape`.

Modelling conventions: the remote inventory is a `World` (gateway ARNs plus
tape records).  Read-only API calls are evaluated against the world; the
mutating calls (`delete_tape`, `delete_tape_archive`) are recorded in an
explicit trace of `ApiCall`s and update the world.  The orchestration
definitions model the runs in which the read-only API calls succeed; API
failures and the retry machinery are modelled separately by attempt
schedules (`Nat → Option ErrorKind`).  Timestamps are UTC epoch seconds as
integers; the Python code normalises timezone-naive datetimes to UTC, so a
single integer faithfully represents the normalised value.  Python dict /
set iteration details are modelled with lists as noted at each definition.
-/

namespace TapeCleanup

/-- Tape status, the closed set used throughout the scripts
(`--status-filter` validation in delete_expired_virtual_tapes.py lists
exactly these nine values). -/
inductive Status
  | creating
  | available
  | inTransitToVts
  | archived
  | retrieved
  | deleting
  | deleted
  | irrecoverable
  | recovering
deriving DecidableEq

/-- Status rendered the way the AWS API / the Python code spells it, used to
build the exact error-message strings. -/
def Status.render : Status → String
  | .creating => "CREATING"
  | .available => "AVAILABLE"
  | .inTransitToVts => "IN_TRANSIT_TO_VTS"
  | .archived => "ARCHIVED"
  | .retrieved => "RETRIEVED"
  | .deleting => "DELETING"
  | .deleted => "DELETED"
  | .irrecoverable => "IRRECOVERABLE"
  | .recovering => "RECOVERING"

/-- One virtual tape of the remote inventory.  `created` is the
`TapeCreatedDate` as UTC epoch seconds (absent for tapes that never
recorded one); `owner` is the gateway that holds the tape (`none` for
archived tapes, which live on the virtual tape shelf). -/
structure TapeRec where
  arn : String
  barcode : String
  status : Status
  sizeBytes : Nat
  usedBytes : Nat
  created : Option Int
  owner : Option String
deriving DecidableEq

/-- The remote state: the gateways of the region (as returned by
`list_gateways`, in order) and the tapes of the region (as returned by
`list_tapes`, in order). -/
structure World where
  gateways : List String
  tapes : List TapeRec
deriving DecidableEq

/-- Mutating Storage Gateway API calls issued by a run (the read-only calls
`list_tapes`, `list_gateways`, `describe_tapes` do not change the remote
state and are not traced). -/
inductive ApiCall
  | deleteTape (gatewayArn tapeArn : String)
  | deleteTapeArchive (tapeArn : String)
deriving DecidableEq

/-! ## Error classification and the two retry wrappers -/

/-- The failure cases distinguished by the scripts: the `ClientError` codes
named in `VirtualTapeManager._handle_aws_error`, an unrecognised
`ClientError` code, and the non-`ClientError` exception classes. -/
inductive ErrorKind
  | throttling
  | requestLimitExceeded
  | limitExceeded
  | invalidGatewayRequest
  | internalServerError
  | serviceUnavailable
  | accessDenied
  | unauthorizedOperation
  | resourceNotFound
  | otherClient
  | endpointConnection
  | botoCore
  | otherFailure
deriving DecidableEq

/-- Whether the exception is a botocore `ClientError` (carries an AWS error
code) as opposed to `EndpointConnectionError`, another `BotoCoreError`, or
an arbitrary exception. -/
def ErrorKind.isClientError : ErrorKind → Bool
  | .endpointConnection | .botoCore | .otherFailure => false
  | _ => true

/-- The rate-limit codes `ThrottlingException` / `RequestLimitExceeded`,
the only codes `TapeManager._retry_api_call` retries. -/
def ErrorKind.isRateLimit : ErrorKind → Bool
  | .throttling | .requestLimitExceeded => true
  | _ => false

/-- Retryability as computed by `VirtualTapeManager._handle_aws_error` when
called with `critical=False` (which is how `_retry_with_backoff` always
calls it): rate limits and transient service errors return `True`, every
other branch returns `False`. -/
def handleAwsError : ErrorKind → Bool
  | .throttling | .requestLimitExceeded => true
  | .internalServerError | .serviceUnavailable => true
  | _ => false

/-- Outcome of a retry-wrapped call: a returned value, a raised exception,
a `sys.exit(1)`, or falling through the loop (the latter is unreachable
from the entry points, which iterate over three attempts; it stands both
for `_retry_with_backoff` returning `None` past its loop and for
`_retry_api_call` raising its generic post-loop exception). -/
inductive RunOutcome (α : Type)
  | ok (a : α)
  | raised (e : ErrorKind)
  | exited
  | fellThrough
deriving DecidableEq

/-- Both classes set `MAX_RETRIES = 3`. -/
def MAX_RETRIES : Nat := 3

/-- Both classes set `RETRY_DELAY = 2` seconds. -/
def RETRY_DELAY : Nat := 2

/-- The loop body of `VirtualTapeManager._retry_with_backoff`: iterate the
remaining attempt indices, returning on success; on an exception classify
it with `_handle_aws_error`; a non-retryable error raises (or exits when
`critical`); a retryable error sleeps `RETRY_DELAY * 2 ** attempt` and
continues unless this was the last attempt, in which case it raises the
last error (or exits when `critical`).  The second component collects the
back-off delays slept, in order.  `last` is the `last_error` variable for
the (unreachable) post-loop `raise`. -/
def retryLoop (f : Nat → Except ErrorKind α) (critical : Bool) :
    List Nat → Option ErrorKind → RunOutcome α × List Nat
  | [], some e => (.raised e, [])
  | [], none => (.fellThrough, [])
  | i :: rest, _ =>
    match f i with
    | .ok a => (.ok a, [])
    | .error e =>
      if handleAwsError e then
        if rest.isEmpty then
          if critical then (.exited, []) else (.raised e, [])
        else
          let next := retryLoop f critical rest (some e)
          (next.1, RETRY_DELAY * 2 ^ i :: next.2)
      else
        if critical then (.exited, []) else (.raised e, [])

/-- `VirtualTapeManager._retry_with_backoff`: three attempts (indices 0, 1,
2), starting with no recorded error. -/
def retryWithBackoff (f : Nat → Except ErrorKind α) (critical : Bool) :
    RunOutcome α × List Nat :=
  retryLoop f critical [0, 1, 2] none

/-- The loop body of `TapeManager._retry_api_call`: only a `ClientError`
with a rate-limit code is retried (with the same `RETRY_DELAY * 2 **
attempt` back-off), and only when attempts remain; every other failure is
re-raised immediately.  The empty case is the post-loop generic raise. -/
def retryApiLoop (f : Nat → Except ErrorKind α) :
    List Nat → RunOutcome α × List Nat
  | [] => (.fellThrough, [])
  | i :: rest =>
    match f i with
    | .ok a => (.ok a, [])
    | .error e =>
      if e.isClientError then
        if e.isRateLimit && !rest.isEmpty then
          let next := retryApiLoop f rest
          (next.1, RETRY_DELAY * 2 ^ i :: next.2)
        else (.raised e, [])
      else (.raised e, [])

/-- `TapeManager._retry_api_call`: three attempts (indices 0, 1, 2). -/
def retryApiCall (f : Nat → Except ErrorKind α) : RunOutcome α × List Nat :=
  retryApiLoop f [0, 1, 2]

/-! ## Expiry classifier -/

/-- Seconds per day; `timedelta.days` is the floor of the difference in
whole days. -/
def SECONDS_PER_DAY : Int := 86400

/-- `VirtualTapeManager.is_tape_expired`: with a creation date, the tape is
expired when its age in whole days strictly exceeds `expiryDays` (the
Python code normalises naive datetimes to UTC before subtracting; `created`
here is already the normalised epoch value).  Without a creation date an
`ARCHIVED` tape is treated as expired unless `expiryDays > 3650`, and any
other tape is treated as not expired. -/
def isTapeExpired (t : TapeRec) (expiryDays : Int) (now : Int) : Bool :=
  match t.created with
  | some c =>
    let ageDays := (now - c).fdiv SECONDS_PER_DAY
    decide (ageDays > expiryDays)
  | none =>
    if t.status == Status.archived then
      if expiryDays > 3650 then false else true
    else false

/-! ## Read-only API calls against a world (failure-free runs) -/

/-- `list_tapes` over all pages: the basic `TapeInfos` of every tape of the
region.  The scripts paginate with `Marker`; the world presents the fully
paginated listing. -/
def listTapesApi (w : World) : List TapeRec :=
  w.tapes

/-- `describe_tapes(GatewayARN, TapeARNs)`: the tapes held by that gateway
among the requested ARNs (archived tapes live on the shelf, carry
`owner = none`, and are never returned by a gateway). -/
def describeTapes (w : World) (g : String) (arns : List String) : List TapeRec :=
  w.tapes.filter (fun t => t.owner == some g && arns.contains t.arn)

/-- `VirtualTapeManager.list_virtual_tapes` with no gateway filter, in a
run where the `list_tapes` calls succeed: all tapes of the region.  (The
failure behaviour of this method is modelled by `vtListTapesOutcome`
below.) -/
def listVirtualTapes (w : World) : List TapeRec :=
  listTapesApi w

/-! ## Gateway enumeration probe (`VirtualTapeManager.get_tape_details`) -/

/-- One gateway's probe of `get_tape_details`: the still-unresolved ARNs
are queried in batches of 100 (`for i in range(0, len(remaining_list),
batch_size)`) and the per-batch `describe_tapes` results are concatenated.
The fuel argument makes the stride-100 loop structurally recursive; the
wrapper passes the list length, which bounds the iteration count. -/
def probeBatchesAux (w : World) (g : String) : Nat → List String → List TapeRec
  | _, [] => []
  | 0, _ :: _ => []
  | fuel + 1, a :: rest =>
    describeTapes w g ((a :: rest).take 100) ++
      probeBatchesAux w g fuel ((a :: rest).drop 100)

/-- All batches of one gateway probe. -/
def probeBatches (w : World) (g : String) (l : List String) : List TapeRec :=
  probeBatchesAux w g l.length l

/-- The gateway loop of `get_tape_details`: walk the gateways returned by
`list_gateways`, breaking as soon as nothing remains unresolved; per
gateway, probe the remaining ARNs in batches, collect the detailed tapes
found, and remove the found ARNs from the remaining set.  Returns the
detailed tapes collected and the ARNs still unresolved at the end (which
the code reports with a could-not-find warning).  The Python remaining set
is modelled as a duplicate-free list. -/
def probeGateways (w : World) : List String → List String → List TapeRec × List String
  | [], remaining => ([], remaining)
  | g :: gs, remaining =>
    if remaining.isEmpty then ([], remaining)
    else
      let found := probeBatches w g remaining
      let foundArns := found.map TapeRec.arn
      let remaining2 := remaining.filter (fun a => !foundArns.contains a)
      let next := probeGateways w gs remaining2
      (found ++ next.1, next.2)

/-- `VirtualTapeManager.get_tape_details(tape_arns)` with no gateway
argument: re-list the basic tapes, split the requested ARNs into archived
(basic status `ARCHIVED`) and active; archived tapes are rebuilt from the
basic record with `TapeCreatedDate = None` and no gateway; active tapes
are resolved by the gateway enumeration probe (over the deduplicated
remaining set, as Python builds a `set` of them).  Archived records come
first, then the probe results, as in the source. -/
def getTapeDetails (w : World) (arns : List String) : List TapeRec :=
  if arns.isEmpty then []
  else
    let basic := listVirtualTapes w
    let lookup := fun a => basic.find? (fun t => t.arn == a)
    let archivedArns := arns.filter (fun a =>
      match lookup a with
      | some t => t.status == Status.archived
      | none => false)
    let activeArns := arns.filter (fun a =>
      match lookup a with
      | some t => !(t.status == Status.archived)
      | none => true)
    let archivedDetails := archivedArns.filterMap (fun a =>
      (lookup a).map (fun t =>
        { arn := t.arn, barcode := t.barcode, status := t.status,
          sizeBytes := t.sizeBytes, usedBytes := t.usedBytes,
          created := none, owner := none : TapeRec }))
    let probe := probeGateways w w.gateways activeArns.dedup
    archivedDetails ++ probe.1

/-! ## Single-tape deletion (`VirtualTapeManager.delete_virtual_tape`) -/

/-- Remove a tape from the remote inventory (the effect of a successful
delete call). -/
def removeTape (w : World) (arn : String) : World :=
  { w with tapes := w.tapes.filter (fun t => !(t.arn == arn)) }

/-- `VirtualTapeManager.delete_virtual_tape`: re-list the basic tapes and
look the ARN up (not found fails); an `ARCHIVED` tape is deleted from the
shelf with `delete_tape_archive`; otherwise the owning gateway is found by
probing each gateway with `describe_tapes` and the tape is deleted from it
with `delete_tape` (no gateway found fails).  Returns the success flag,
the updated world, and the mutating calls issued.  The API calls succeed
in this model; the failure modes kept are the not-found ones the code
checks for. -/
def deleteVirtualTape (w : World) (arn : String) : Bool × World × List ApiCall :=
  match (listVirtualTapes w).find? (fun t => t.arn == arn) with
  | none => (false, w, [])
  | some t =>
    if t.status == Status.archived then
      (true, removeTape w arn, [ApiCall.deleteTapeArchive arn])
    else
      match w.gateways.find? (fun g => !(describeTapes w g [arn]).isEmpty) with
      | none => (false, w, [])
      | some g => (true, removeTape w arn, [ApiCall.deleteTape g arn])

/-! ## Expired-tape orchestration (`VirtualTapeManager.delete_expired_tapes`) -/

/-- The results dictionary of `delete_expired_tapes`. -/
structure ExpiredResults where
  totalTapes : Nat
  expiredTapes : Nat
  deletedTapes : Nat
  failedDeletions : Nat
  errors : List String
deriving DecidableEq

/-- The f-string `f"Tape {tape_barcode} not in deletable state: {tape_status}"`. -/
def notDeletableMsg (t : TapeRec) : String :=
  "Tape " ++ t.barcode ++ " not in deletable state: " ++ t.status.render

/-- One iteration of the active-expired loop of `delete_expired_tapes`,
state `(world, results, issued calls)`.  Dry run counts the tape as
would-delete with no call and no status check; execute mode deletes only
`AVAILABLE` / `RETRIEVED` tapes via `delete_virtual_tape`, counting success
or failure, and records every other status as a non-fatal
not-in-deletable-state error. -/
def processActiveExpired (dryRun : Bool)
    (st : World × ExpiredResults × List ApiCall) (t : TapeRec) :
    World × ExpiredResults × List ApiCall :=
  if dryRun then
    (st.1, { st.2.1 with deletedTapes := st.2.1.deletedTapes + 1 }, st.2.2)
  else
    if t.status == Status.available || t.status == Status.retrieved then
      let res := deleteVirtualTape st.1 t.arn
      if res.1 then
        (res.2.1, { st.2.1 with deletedTapes := st.2.1.deletedTapes + 1 },
          st.2.2 ++ res.2.2)
      else
        (res.2.1,
          { st.2.1 with failedDeletions := st.2.1.failedDeletions + 1,
                        errors := st.2.1.errors ++ ["Failed to delete " ++ t.barcode] },
          st.2.2 ++ res.2.2)
    else
      (st.1, { st.2.1 with errors := st.2.1.errors ++ [notDeletableMsg t] }, st.2.2)

/-- One iteration of the archived-expired loop of `delete_expired_tapes`
(the caller iterates the expired tapes skipping the non-archived ones).
Dry run counts the tape as would-delete; execute mode deletes it through
`delete_virtual_tape`, which routes an archived tape to
`delete_tape_archive`. -/
def processArchivedExpired (dryRun : Bool)
    (st : World × ExpiredResults × List ApiCall) (t : TapeRec) :
    World × ExpiredResults × List ApiCall :=
  if dryRun then
    (st.1, { st.2.1 with deletedTapes := st.2.1.deletedTapes + 1 }, st.2.2)
  else
    let res := deleteVirtualTape st.1 t.arn
    if res.1 then
      (res.2.1, { st.2.1 with deletedTapes := st.2.1.deletedTapes + 1 },
        st.2.2 ++ res.2.2)
    else
      (res.2.1,
        { st.2.1 with failedDeletions := st.2.1.failedDeletions + 1,
                      errors := st.2.1.errors ++
                        ["Failed to delete archived tape " ++ t.barcode] },
        st.2.2 ++ res.2.2)

/-- `VirtualTapeManager.delete_expired_tapes` (no gateway filter), for runs
where the read-only calls succeed: discover the tapes (empty discovery
returns early), fetch details, classify expiry, record a
cannot-delete-directly error for every archived expired tape during the
partitioning pass, then run the active loop followed by the archived loop.
Returns `(results, final world, issued mutating calls)`. -/
def deleteExpiredTapes (w : World) (expiryDays : Int) (dryRun : Bool)
    (now : Int) : ExpiredResults × World × List ApiCall :=
  let tapes := listVirtualTapes w
  let r1 : ExpiredResults :=
    { totalTapes := tapes.length, expiredTapes := 0, deletedTapes := 0,
      failedDeletions := 0, errors := [] }
  if tapes.isEmpty then (r1, w, [])
  else
    let detailed := getTapeDetails w (tapes.map TapeRec.arn)
    let expired := detailed.filter (fun t => isTapeExpired t expiryDays now)
    let archivedExpired := expired.filter (fun t => t.status == Status.archived)
    let activeExpired := expired.filter (fun t => !(t.status == Status.archived))
    let r3 : ExpiredResults :=
      { r1 with expiredTapes := expired.length,
                errors := r1.errors ++ archivedExpired.map (fun t =>
                  "Archived tape " ++ t.barcode ++ " cannot be deleted directly") }
    let st1 := activeExpired.foldl (processActiveExpired dryRun) (w, r3, [])
    let st2 := archivedExpired.foldl (processArchivedExpired dryRun) st1
    (st2.2.1, st2.1, st2.2.2)

/-! ## Specific-tape orchestration (`VirtualTapeManager.delete_specific_tapes`) -/

/-- One entry of the `processed_tapes` disposition list. -/
structure ProcessedTape where
  identifier : String
  arn : String
  barcode : String
  status : Status
  actionTaken : String
  success : Bool
deriving DecidableEq

/-- The results dictionary of `delete_specific_tapes`. -/
structure SpecificResults where
  totalRequested : Nat
  tapesFound : Nat
  tapesNotFound : Nat
  deletedTapes : Nat
  failedDeletions : Nat
  errors : List String
  notFoundTapes : List String
  processedTapes : List ProcessedTape
deriving DecidableEq

/-- Python `str.strip()` on both ends (whitespace), written structurally on
the character list so that concrete instances evaluate in the kernel. -/
def pyStrip (s : String) : String :=
  String.mk (((s.data.dropWhile Char.isWhitespace).reverse.dropWhile
    Char.isWhitespace).reverse)

/-- The identifier lookup of `delete_specific_tapes`: by ARN first, then
by barcode. -/
def specificLookup (byArn byBarcode : String → Option TapeRec)
    (ident : String) : Option TapeRec :=
  match byArn ident with
  | some t => some t
  | none => byBarcode ident

/-- One iteration of the identifier loop of `delete_specific_tapes`: strip
the identifier, look it up by ARN then barcode; a miss counts as not found
with an error entry; a hit counts as found and is then either counted as a
dry-run would-delete, deleted when its status is `AVAILABLE` or `ARCHIVED`
(success or failure individually recorded), or skipped as not deletable.
Every found tape gets exactly one `processed_tapes` disposition record. -/
def processSpecificId (dryRun : Bool)
    (byArn byBarcode : String → Option TapeRec)
    (st : World × SpecificResults × List ApiCall) (ident0 : String) :
    World × SpecificResults × List ApiCall :=
  let ident := pyStrip ident0
  match specificLookup byArn byBarcode ident with
  | none =>
    (st.1,
      { st.2.1 with tapesNotFound := st.2.1.tapesNotFound + 1,
                    notFoundTapes := st.2.1.notFoundTapes ++ [ident],
                    errors := st.2.1.errors ++ ["Tape not found: " ++ ident] },
      st.2.2)
  | some t =>
    if dryRun then
      (st.1,
        { st.2.1 with tapesFound := st.2.1.tapesFound + 1,
                      deletedTapes := st.2.1.deletedTapes + 1,
                      processedTapes := st.2.1.processedTapes ++
                        [{ identifier := ident, arn := t.arn, barcode := t.barcode,
                           status := t.status, actionTaken := "would_delete",
                           success := true }] },
        st.2.2)
    else
      if t.status == Status.available || t.status == Status.archived then
        let res := deleteVirtualTape st.1 t.arn
        if res.1 then
          (res.2.1,
            { st.2.1 with tapesFound := st.2.1.tapesFound + 1,
                          deletedTapes := st.2.1.deletedTapes + 1,
                          processedTapes := st.2.1.processedTapes ++
                            [{ identifier := ident, arn := t.arn,
                               barcode := t.barcode, status := t.status,
                               actionTaken := "deleted", success := true }] },
            st.2.2 ++ res.2.2)
        else
          (res.2.1,
            { st.2.1 with tapesFound := st.2.1.tapesFound + 1,
                          failedDeletions := st.2.1.failedDeletions + 1,
                          errors := st.2.1.errors ++
                            ["Failed to delete " ++ t.barcode],
                          processedTapes := st.2.1.processedTapes ++
                            [{ identifier := ident, arn := t.arn,
                               barcode := t.barcode, status := t.status,
                               actionTaken := "delete_failed", success := false }] },
            st.2.2 ++ res.2.2)
      else
        (st.1,
          { st.2.1 with tapesFound := st.2.1.tapesFound + 1,
                        errors := st.2.1.errors ++ [notDeletableMsg t],
                        processedTapes := st.2.1.processedTapes ++
                          [{ identifier := ident, arn := t.arn,
                             barcode := t.barcode, status := t.status,
                             actionTaken := "skipped_not_deletable",
                             success := false }] },
          st.2.2)

/-- `VirtualTapeManager.delete_specific_tapes`, for runs where the
read-only calls succeed: an empty discovery returns early with the
no-tapes error; otherwise the lookup dictionaries are built from the
detailed tapes (keyed by ARN and by barcode; Python dict comprehensions
keep the last entry for a duplicate key, modelled by searching the
reversed list) and each requested identifier is processed in order. -/
def deleteSpecificTapes (w : World) (tapeList : List String) (dryRun : Bool) :
    SpecificResults × World × List ApiCall :=
  let r0 : SpecificResults :=
    { totalRequested := tapeList.length, tapesFound := 0, tapesNotFound := 0,
      deletedTapes := 0, failedDeletions := 0, errors := [],
      notFoundTapes := [], processedTapes := [] }
  let allTapes := listVirtualTapes w
  if allTapes.isEmpty then
    ({ r0 with errors := ["No virtual tapes found in the system"] }, w, [])
  else
    let detailed := getTapeDetails w (allTapes.map TapeRec.arn)
    let byArn := fun a => detailed.reverse.find? (fun t => t.arn == a)
    let byBarcode := fun b => detailed.reverse.find? (fun t => t.barcode == b)
    let st := tapeList.foldl (processSpecificId dryRun byArn byBarcode) (w, r0, [])
    (st.2.1, st.1, st.2.2)

/-! ## Discovery under API failures -/

/-- Attempt schedule for the `list_tapes` API call: attempt `i` either
fails with the scheduled error or returns the listing of the world. -/
def listTapesAttempt (w : World) (fail : Nat → Option ErrorKind) (i : Nat) :
    Except ErrorKind (List TapeRec) :=
  match fail i with
  | some e => Except.error e
  | none => Except.ok (listTapesApi w)

/-- The `list_tapes` call of `VirtualTapeManager.list_virtual_tapes`,
which is wrapped in `_retry_with_backoff(..., critical=True)`: a
non-retryable error, or exhausted retries, exit the process rather than
raising into the surrounding `except` clause. -/
def vtListTapesOutcome (w : World) (fail : Nat → Option ErrorKind) :
    RunOutcome (List TapeRec) :=
  (retryWithBackoff (listTapesAttempt w fail) true).1

/-! ## The tape_manager.py / tape_operations.py pipeline -/

/-- `TapeManager.list_tapes(status_filter)`: the `list_tapes` API call goes
through `_retry_api_call`; any raised error is caught, logged, and turned
into an empty listing.  A truthy (non-empty) status filter keeps only the
matching tapes, as the Python `if status_filter:` guard does. -/
def tmListTapes (w : World) (fail : Nat → Option ErrorKind)
    (statusFilter : Option (List Status)) : List TapeRec :=
  match (retryApiCall (listTapesAttempt w fail)).1 with
  | .ok ts =>
    match statusFilter with
    | some sf => if sf.isEmpty then ts else ts.filter (fun t => sf.contains t.status)
    | none => ts
  | _ => []

/-- `TapeManager._find_gateway_for_tape`: walk the gateways from
`list_gateways` and return the first whose `describe_tapes` answer for the
single ARN is non-empty. -/
def findGatewayForTape (w : World) (arn : String) : Option String :=
  w.gateways.find? (fun g => !(describeTapes w g [arn]).isEmpty)

/-- `TapeManager.delete_tape(tape_arn, tape_status)`: an `ARCHIVED` tape is
deleted from the shelf, any other tape from the gateway found by
`_find_gateway_for_tape` (failing when none is found).  The delete calls
succeed in this model. -/
def tmDeleteTape (w : World) (arn : String) (status : Status) :
    Bool × World × List ApiCall :=
  if status == Status.archived then
    (true, removeTape w arn, [ApiCall.deleteTapeArchive arn])
  else
    match findGatewayForTape w arn with
    | none => (false, w, [])
    | some g => (true, removeTape w arn, [ApiCall.deleteTape g arn])

/-- The results dictionary of tape_operations.py `delete_expired_tapes`. -/
structure ToResults where
  totalTapes : Nat
  expiredTapes : Nat
  deleted : Nat
  failed : Nat
  errors : List String
deriving DecidableEq

/-- One iteration of the tape loop of tape_operations.py
`delete_expired_tapes`: only a tape with status `ARCHIVED` is counted as
expired and processed (the comment in the source assumes archived tapes
are old; active tapes have no creation date in the basic listing and are
ignored); dry run counts it as deleted, execute mode deletes it through
`TapeManager.delete_tape` and records a failure entry on failure. -/
def toStep (dryRun : Bool) (st : World × ToResults × List ApiCall)
    (t : TapeRec) : World × ToResults × List ApiCall :=
  if t.status == Status.archived then
    if dryRun then
      (st.1,
        { st.2.1 with expiredTapes := st.2.1.expiredTapes + 1,
                      deleted := st.2.1.deleted + 1 }, st.2.2)
    else
      let res := tmDeleteTape st.1 t.arn t.status
      if res.1 then
        (res.2.1,
          { st.2.1 with expiredTapes := st.2.1.expiredTapes + 1,
                        deleted := st.2.1.deleted + 1 }, st.2.2 ++ res.2.2)
      else
        (res.2.1,
          { st.2.1 with expiredTapes := st.2.1.expiredTapes + 1,
                        failed := st.2.1.failed + 1,
                        errors := st.2.1.errors ++
                          ["Failed to delete " ++ t.barcode ++
                            " (ARN: " ++ t.arn ++ ")"] },
          st.2.2 ++ res.2.2)
  else st

/-- tape_operations.py `delete_expired_tapes(manager, expiry_days,
dry_run)`: list the tapes through `TapeManager.list_tapes` (an API failure
yields an empty listing) and run the loop.  The `expiry_days` argument is
kept to mirror the Python signature; the body never reads it. -/
def toDeleteExpiredTapes (w : World) (fail : Nat → Option ErrorKind)
    (expiryDays : Int) (dryRun : Bool) : ToResults × World × List ApiCall :=
  let tapes := tmListTapes w fail none
  let r0 : ToResults :=
    { totalTapes := tapes.length, expiredTapes := 0, deleted := 0,
      failed := 0, errors := [] }
  let st := tapes.foldl (toStep dryRun) (w, r0, [])
  (st.2.1, st.1, st.2.2)

/-! ## Concrete instances used by individual claims -/

/-- Concrete region for the C3 witness: two gateways, a tape on each, and
an archived tape on the shelf. -/
def c3World : World :=
  { gateways := ["g1", "g2"],
    tapes :=
      [{ arn := "a1", barcode := "VTL001", status := Status.available,
         sizeBytes := 100, usedBytes := 5, created := some 0, owner := some "g2" },
       { arn := "a2", barcode := "VTL002", status := Status.retrieved,
         sizeBytes := 100, usedBytes := 5, created := some 0, owner := some "g1" },
       { arn := "a3", barcode := "VTL003", status := Status.archived,
         sizeBytes := 100, usedBytes := 5, created := none, owner := none }] }

/-- Concrete region for the C1 counterexample: a single `RETRIEVED` tape
on a known gateway. -/
def c1World : World :=
  { gateways := ["gw-1"],
    tapes := [{ arn := "arn-r1", barcode := "VTL1", status := Status.retrieved,
                sizeBytes := 100, usedBytes := 10, created := some 0,
                owner := some "gw-1" }] }

/-- Concrete region for the C1 witness. -/
def c1WitnessWorld : World :=
  { gateways := ["gw-1"],
    tapes := [{ arn := "arn-a1", barcode := "VTLA", status := Status.available,
                sizeBytes := 100, usedBytes := 10, created := some 0,
                owner := some "gw-1" },
              { arn := "arn-b1", barcode := "VTLB", status := Status.archived,
                sizeBytes := 100, usedBytes := 10, created := none,
                owner := none }] }

/-- Expired-results accumulator for the C1 witness. -/
def c1EmptyResults : ExpiredResults :=
  { totalTapes := 2, expiredTapes := 2, deletedTapes := 0,
    failedDeletions := 0, errors := [] }

/-- Concrete state for the C6 witness: a region whose inventory no longer
contains the tape being processed (the deletion then fails with the
tape-not-found path of `delete_virtual_tape`). -/
def c6World : World :=
  { gateways := ["gw-1"], tapes := [] }

/-- Results accumulator for the C6 witness. -/
def c6Results : ExpiredResults :=
  { totalTapes := 1, expiredTapes := 1, deletedTapes := 0,
    failedDeletions := 0, errors := [] }

/-- Detailed tape for the C6 witness whose ARN has vanished from the
inventory. -/
def c6Ghost : TapeRec :=
  { arn := "arn-g1", barcode := "GHOST", status := Status.available,
    sizeBytes := 100, usedBytes := 10, created := some 0, owner := some "gw-1" }

/-- Concrete region for C7: one archived tape, so a successful discovery
would report one tape. -/
def c7World : World :=
  { gateways := ["gw-1"],
    tapes := [{ arn := "arn-71", barcode := "VTL71", status := Status.archived,
                sizeBytes := 100, usedBytes := 0, created := none,
                owner := none }] }

/-- Concrete region for the C8 conjuncts: one `CREATING` tape old enough
to match any age filter. -/
def c8World : World :=
  { gateways := ["gw-1"],
    tapes := [{ arn := "arn-c8", barcode := "VTLC", status := Status.creating,
                sizeBytes := 100, usedBytes := 10, created := some 0,
                owner := some "gw-1" }] }

/-- The detailed record of the `c8World` tape. -/
def c8Tape : TapeRec :=
  { arn := "arn-c8", barcode := "VTLC", status := Status.creating,
    sizeBytes := 100, usedBytes := 10, created := some 0, owner := some "gw-1" }

/-- Results accumulator for the C8 witness. -/
def c8Results : SpecificResults :=
  { totalRequested := 1, tapesFound := 0, tapesNotFound := 0,
    deletedTapes := 0, failedDeletions := 0, errors := [],
    notFoundTapes := [], processedTapes := [] }

/-- Concrete region for the C10 witness. -/
def c10World : World :=
  { gateways := ["gw-1"],
    tapes := [{ arn := "arn-x1", barcode := "VTL1", status := Status.available,
                sizeBytes := 100, usedBytes := 10, created := some 0,
                owner := some "gw-1" }] }

/-! ## Helper lemmas -/

/-- Membership in a `describe_tapes` answer: the tape is in the inventory,
owned by the queried gateway, and among the requested ARNs. -/
theorem mem_describeTapes {w : World} {g : String} {arns : List String}
    {t : TapeRec} :
    t ∈ describeTapes w g arns ↔
      t ∈ w.tapes ∧ t.owner = some g ∧ t.arn ∈ arns := by
  simp [describeTapes, List.mem_filter, and_assoc]

/-- Membership in one gateway probe, for sufficient fuel: batching the
requested ARNs does not change the set of tapes found. -/
theorem mem_probeBatchesAux {w : World} {g : String} :
    ∀ (fuel : Nat) (l : List String), l.length ≤ fuel →
      ∀ t : TapeRec,
        (t ∈ probeBatchesAux w g fuel l ↔
          t ∈ w.tapes ∧ t.owner = some g ∧ t.arn ∈ l) := by
  intro fuel
  induction fuel with
  | zero =>
    intro l hl t
    cases l with
    | nil => simp [probeBatchesAux]
    | cons a rest => simp at hl
  | succ n ih =>
    intro l hl t
    cases l with
    | nil => simp [probeBatchesAux]
    | cons a rest =>
      have hdrop : ((a :: rest).drop 100).length ≤ n := by
        simp only [List.length_drop]
        simp only [List.length_cons] at hl ⊢
        omega
      have hsplit : t.arn ∈ (a :: rest).take 100 ∨ t.arn ∈ (a :: rest).drop 100 ↔
          t.arn ∈ a :: rest := by
        rw [← List.mem_append, List.take_append_drop]
      simp only [probeBatchesAux, List.mem_append, mem_describeTapes,
        ih _ hdrop]
      constructor
      · rintro (⟨h1, h2, h3⟩ | ⟨h1, h2, h3⟩)
        · exact ⟨h1, h2, hsplit.1 (Or.inl h3)⟩
        · exact ⟨h1, h2, hsplit.1 (Or.inr h3)⟩
      · rintro ⟨h1, h2, h3⟩
        rcases hsplit.2 h3 with h | h
        · exact Or.inl ⟨h1, h2, h⟩
        · exact Or.inr ⟨h1, h2, h⟩

/-- Membership in one gateway probe. -/
theorem mem_probeBatches {w : World} {g : String} {l : List String}
    {t : TapeRec} :
    t ∈ probeBatches w g l ↔ t ∈ w.tapes ∧ t.owner = some g ∧ t.arn ∈ l :=
  mem_probeBatchesAux l.length l (Nat.le_refl _) t

/-- With duplicate-free tape ARNs, the ARN determines the tape record. -/
theorem arn_injective {w : World}
    (hwf : (w.tapes.map TapeRec.arn).Nodup) {t u : TapeRec}
    (ht : t ∈ w.tapes) (hu : u ∈ w.tapes) (h : t.arn = u.arn) : t = u :=
  List.inj_on_of_nodup_map hwf ht hu h

/-- Full specification of the gateway enumeration loop: every requested
tape held by a listed gateway is collected, every requested ARN held by no
listed gateway survives into the unresolved remainder, and everything
collected is a genuine inventory record owned by a listed gateway. -/
theorem probeGateways_spec (w : World)
    (hwf : (w.tapes.map TapeRec.arn).Nodup) :
    ∀ (gws remaining : List String),
      (∀ t ∈ w.tapes, ∀ g, t.owner = some g → g ∈ gws → t.arn ∈ remaining →
        t ∈ (probeGateways w gws remaining).1)
      ∧ (∀ a ∈ remaining,
          (∀ t ∈ w.tapes, t.arn = a → ∀ g ∈ gws, t.owner ≠ some g) →
          a ∈ (probeGateways w gws remaining).2)
      ∧ (∀ t ∈ (probeGateways w gws remaining).1,
          t ∈ w.tapes ∧ ∃ g ∈ gws, t.owner = some g) := by
  intro gws
  induction gws with
  | nil =>
    intro remaining
    refine ⟨?_, ?_, ?_⟩
    · intro t _ g _ hg
      simp at hg
    · intro a ha _
      simpa [probeGateways] using ha
    · intro t ht
      simp [probeGateways] at ht
  | cons g gs ih =>
    intro remaining
    by_cases hemp : remaining.isEmpty
    · have hrem : remaining = [] := List.isEmpty_iff.mp hemp
      subst hrem
      refine ⟨?_, ?_, ?_⟩
      · intro t _ g0 _ _ harn
        simp at harn
      · intro a ha
        simp at ha
      · intro t ht
        simp [probeGateways] at ht
    · have hstep : probeGateways w (g :: gs) remaining =
          (probeBatches w g remaining ++
            (probeGateways w gs (remaining.filter (fun a =>
              !((probeBatches w g remaining).map TapeRec.arn).contains a))).1,
           (probeGateways w gs (remaining.filter (fun a =>
              !((probeBatches w g remaining).map TapeRec.arn).contains a))).2) := by
        simp [probeGateways, hemp]
      set remaining2 := remaining.filter (fun a =>
        !((probeBatches w g remaining).map TapeRec.arn).contains a) with hrem2
      have hnotfound : ∀ a ∈ remaining,
          (∀ t ∈ w.tapes, t.arn = a → t.owner ≠ some g) → a ∈ remaining2 := by
        intro a ha hno
        rw [hrem2, List.mem_filter]
        refine ⟨ha, ?_⟩
        suffices h : ¬ a ∈ (probeBatches w g remaining).map TapeRec.arn by
          simpa using h
        intro hmem
        rcases List.mem_map.1 hmem with ⟨u, hu, harnu⟩
        rcases mem_probeBatches.1 hu with ⟨hu1, hu2, _⟩
        exact hno u hu1 harnu hu2
      refine ⟨?_, ?_, ?_⟩
      · intro t ht g0 hown hg0 harn
        rw [hstep]
        simp only [List.mem_append]
        by_cases hown_g : t.owner = some g
        · exact Or.inl (mem_probeBatches.2 ⟨ht, hown_g, harn⟩)
        · have hg0gs : g0 ∈ gs := by
            rcases List.mem_cons.1 hg0 with h | h
            · exact absurd (h ▸ hown) hown_g
            · exact h
          have harn2 : t.arn ∈ remaining2 := by
            apply hnotfound t.arn harn
            intro u hu harnu
            have : u = t := arn_injective hwf hu ht harnu
            subst this
            exact hown_g
          exact Or.inr ((ih remaining2).1 t ht g0 hown hg0gs harn2)
      · intro a ha hno
        rw [hstep]
        have ha2 : a ∈ remaining2 := by
          apply hnotfound a ha
          intro u hu harnu
          exact hno u hu harnu g (List.mem_cons_self g gs)
        exact (ih remaining2).2.1 a ha2 (fun t ht harn g' hg' =>
          hno t ht harn g' (List.mem_cons_of_mem g hg'))
      · intro t ht
        rw [hstep] at ht
        simp only [List.mem_append] at ht
        rcases ht with h | h
        · rcases mem_probeBatches.1 h with ⟨h1, h2, _⟩
          exact ⟨h1, g, List.mem_cons_self g gs, h2⟩
        · rcases (ih remaining2).2.2 t h with ⟨h1, g', hg', h2⟩
          exact ⟨h1, g', List.mem_cons_of_mem g hg', h2⟩

/-- With duplicate-free ARNs, looking a tape's ARN up in the listing finds
exactly its record. -/
theorem find_by_arn {l : List TapeRec} {t : TapeRec} (ht : t ∈ l)
    (hnd : (l.map TapeRec.arn).Nodup) :
    l.find? (fun u => u.arn == t.arn) = some t := by
  induction l with
  | nil => simp at ht
  | cons u rest ih =>
    rcases List.mem_cons.1 ht with rfl | htr
    · rw [List.find?_cons_of_pos _ (by simp)]
    · have hne : ¬ u.arn = t.arn := by
        intro h
        have : t.arn ∈ rest.map TapeRec.arn := List.mem_map_of_mem _ htr
        rw [← h] at this
        exact (List.nodup_cons.1 hnd).1 this
      rw [List.find?_cons_of_neg _ (by simpa using hne)]
      exact ih htr (List.nodup_cons.1 hnd).2

/-- A gateway's `describe_tapes` answer for one ARN is non-empty exactly
when that gateway owns the tape (duplicate-free ARNs). -/
theorem describeTapes_single {w : World} {t : TapeRec}
    (hwf : (w.tapes.map TapeRec.arn).Nodup) (ht : t ∈ w.tapes)
    (g' : String) :
    (!(describeTapes w g' [t.arn]).isEmpty) = true ↔ t.owner = some g' := by
  constructor
  · intro h
    have hne : describeTapes w g' [t.arn] ≠ [] := by
      intro hnil
      rw [hnil] at h
      simp at h
    obtain ⟨u, hu⟩ := List.exists_mem_of_ne_nil _ hne
    rcases mem_describeTapes.1 hu with ⟨hu1, hu2, hu3⟩
    simp only [List.mem_singleton] at hu3
    have : u = t := arn_injective hwf hu1 ht hu3
    subst this
    exact hu2
  · intro h
    have hmem : t ∈ describeTapes w g' [t.arn] :=
      mem_describeTapes.2 ⟨ht, h, by simp⟩
    cases hd : describeTapes w g' [t.arn] with
    | nil =>
      rw [hd] at hmem
      simp at hmem
    | cons a l => simp [hd]

/-- The first gateway whose probe answers is the owning gateway. -/
theorem find_gateway_of_owner {w : World} {t : TapeRec} {g : String}
    (hwf : (w.tapes.map TapeRec.arn).Nodup) (ht : t ∈ w.tapes)
    (hown : t.owner = some g) :
    ∀ gl : List String, g ∈ gl →
      gl.find? (fun g' => !(describeTapes w g' [t.arn]).isEmpty) = some g := by
  intro gl
  induction gl with
  | nil => intro h; simp at h
  | cons h0 rest ih =>
    intro hg
    by_cases hh : h0 = g
    · subst hh
      exact @List.find?_cons_of_pos _
        (fun g' => !(describeTapes w g' [t.arn]).isEmpty) h0 rest
        ((describeTapes_single hwf ht h0).2 hown)
    · have hpred : ¬ (!(describeTapes w h0 [t.arn]).isEmpty) = true := by
        rw [describeTapes_single hwf ht h0, hown]
        simp [Ne.symm hh]
      rw [@List.find?_cons_of_neg _
        (fun g' => !(describeTapes w g' [t.arn]).isEmpty) h0 rest hpred]
      exact ih (by
        rcases List.mem_cons.1 hg with h | h
        · exact absurd h.symm hh
        · exact h)

/-- `delete_virtual_tape` on an inventory tape with status `ARCHIVED`
issues exactly the shelf delete call and succeeds. -/
theorem deleteVirtualTape_archived {w : World} {t : TapeRec}
    (hwf : (w.tapes.map TapeRec.arn).Nodup) (ht : t ∈ w.tapes)
    (hst : t.status = Status.archived) :
    deleteVirtualTape w t.arn
      = (true, removeTape w t.arn, [ApiCall.deleteTapeArchive t.arn]) := by
  simp [deleteVirtualTape, listVirtualTapes, listTapesApi,
    find_by_arn ht hwf, hst]

/-- `delete_virtual_tape` on a non-archived inventory tape whose owner is
among the listed gateways issues exactly the gateway delete call to the
owning gateway and succeeds. -/
theorem deleteVirtualTape_gateway {w : World} {t : TapeRec} {g : String}
    (hwf : (w.tapes.map TapeRec.arn).Nodup) (ht : t ∈ w.tapes)
    (hst : ¬ t.status = Status.archived) (hown : t.owner = some g)
    (hg : g ∈ w.gateways) :
    deleteVirtualTape w t.arn
      = (true, removeTape w t.arn, [ApiCall.deleteTape g t.arn]) := by
  simp [deleteVirtualTape, listVirtualTapes, listTapesApi,
    find_by_arn ht hwf, hst,
    find_gateway_of_owner hwf ht hown w.gateways hg]

/-- A dry-run pass of the active-expired loop touches neither the world
nor the call trace. -/
theorem foldl_active_dry_frame (l : List TapeRec) :
    ∀ st : World × ExpiredResults × List ApiCall,
      (l.foldl (processActiveExpired true) st).1 = st.1
      ∧ (l.foldl (processActiveExpired true) st).2.2 = st.2.2 := by
  induction l with
  | nil => intro st; exact ⟨rfl, rfl⟩
  | cons t rest ih =>
    intro st
    rw [List.foldl_cons]
    obtain ⟨h1, h2⟩ := ih (processActiveExpired true st t)
    exact ⟨h1, h2⟩

/-- A dry-run pass of the archived-expired loop touches neither the world
nor the call trace. -/
theorem foldl_archived_dry_frame (l : List TapeRec) :
    ∀ st : World × ExpiredResults × List ApiCall,
      (l.foldl (processArchivedExpired true) st).1 = st.1
      ∧ (l.foldl (processArchivedExpired true) st).2.2 = st.2.2 := by
  induction l with
  | nil => intro st; exact ⟨rfl, rfl⟩
  | cons t rest ih =>
    intro st
    rw [List.foldl_cons]
    obtain ⟨h1, h2⟩ := ih (processArchivedExpired true st t)
    exact ⟨h1, h2⟩

/-- A dry-run pass of the tape_operations.py loop touches neither the
world nor the call trace. -/
theorem foldl_toStep_dry_frame (l : List TapeRec) :
    ∀ st : World × ToResults × List ApiCall,
      (l.foldl (toStep true) st).1 = st.1
      ∧ (l.foldl (toStep true) st).2.2 = st.2.2 := by
  induction l with
  | nil => intro st; exact ⟨rfl, rfl⟩
  | cons t rest ih =>
    intro st
    rw [List.foldl_cons]
    obtain ⟨h1, h2⟩ := ih (toStep true st t)
    have hstep : (toStep true st t).1 = st.1 ∧ (toStep true st t).2.2 = st.2.2 := by
      by_cases h : t.status == Status.archived <;> simp [toStep, h]
    exact ⟨h1.trans hstep.1, h2.trans hstep.2⟩

/-! ## Theorems -/

/-- C2: for every tape and threshold, `is_tape_expired` returns: with a
creation date present, whether the age in whole days (UTC) strictly
exceeds the threshold; with no creation date and status `ARCHIVED`,
whether the threshold is at most 3650 days; with no creation date and any
other status, `false` for every threshold. -/
theorem c2_expiry_classifier (t : TapeRec) (d now : Int) :
    (∀ c : Int, t.created = some c →
      (isTapeExpired t d now = true ↔ (now - c).fdiv SECONDS_PER_DAY > d))
    ∧ (t.created = none → t.status = Status.archived →
      (isTapeExpired t d now = true ↔ d ≤ 3650))
    ∧ (t.created = none → t.status ≠ Status.archived →
      isTapeExpired t d now = false) := by
  refine ⟨?_, ?_, ?_⟩
  · intro c hc
    simp [isTapeExpired, hc]
  · intro hc hs
    simp only [isTapeExpired, hc, hs]
    constructor
    · intro h
      by_contra hle
      simp [show (3650 : Int) < d by omega] at h
    · intro h
      simp [show ¬ (3650 : Int) < d by omega]
  · intro hc hs
    simp only [isTapeExpired, hc]
    simp [beq_iff_eq, hs]

/-- Witness for C2 at a concrete tape: an `AVAILABLE` tape created 40 days
ago is expired for a 30-day threshold; an archived tape with no creation
date is expired for a 30-day threshold but not for a 4000-day one. -/
theorem c2_expiry_classifier_witness :
    ({ arn := "a", barcode := "b", status := Status.available,
       sizeBytes := 0, usedBytes := 0, created := some 0,
       owner := some "g" : TapeRec }.created = some 0
      ∧ ((40 : Int) * 86400 - 0).fdiv SECONDS_PER_DAY > 30)
    ∧ isTapeExpired
        { arn := "a", barcode := "b", status := Status.available,
          sizeBytes := 0, usedBytes := 0, created := some 0,
          owner := some "g" } 30 (40 * 86400) = true := by
  refine ⟨⟨rfl, by decide⟩, ?_⟩
  exact ((c2_expiry_classifier _ 30 (40 * 86400)).1 0 rfl).mpr (by decide)

/-- C3: over a region whose tapes carry duplicate-free ARNs, the
enumeration-probe resolution of `get_tape_details` (walk the gateways from
`list_gateways`, probe each with the still-unresolved ARNs in batches of
100, remove the ARNs found) collects every requested tape held by some
listed gateway — and the collected record carries its actual owning
gateway, since only that gateway's `describe_tapes` returns it — while
every requested ARN held by no listed gateway ends in the unresolved
remainder that the code reports as not found, never in the collected
details. -/
theorem c3_resolver_correct (w : World) (arns : List String)
    (hwf : (w.tapes.map TapeRec.arn).Nodup) :
    (∀ t ∈ w.tapes, ∀ g, t.owner = some g → g ∈ w.gateways → t.arn ∈ arns →
      t ∈ (probeGateways w w.gateways arns).1)
    ∧ (∀ a ∈ arns,
        (∀ t ∈ w.tapes, t.arn = a → ∀ g ∈ w.gateways, t.owner ≠ some g) →
        a ∈ (probeGateways w w.gateways arns).2)
    ∧ (∀ t ∈ (probeGateways w w.gateways arns).1,
        t ∈ w.tapes ∧ ∃ g ∈ w.gateways, t.owner = some g) :=
  probeGateways_spec w hwf w.gateways arns

/-- Witness for C3: in `c3World`, resolving the ARNs `a1`, `a2` and the
nonexistent `zz` finds the tape on gateway `g2`, and reports `zz` (held by
no gateway) as unresolved. -/
theorem c3_resolver_correct_witness :
    ({ arn := "a1", barcode := "VTL001", status := Status.available,
       sizeBytes := 100, usedBytes := 5, created := some 0,
       owner := some "g2" : TapeRec }
        ∈ (probeGateways c3World c3World.gateways ["a1", "a2", "zz"]).1)
    ∧ "zz" ∈ (probeGateways c3World c3World.gateways ["a1", "a2", "zz"]).2 := by
  refine ⟨?_, ?_⟩
  · exact (c3_resolver_correct c3World ["a1", "a2", "zz"] (by decide)).1
      _ (by decide) "g2" rfl (by decide) (by decide)
  · exact (c3_resolver_correct c3World ["a1", "a2", "zz"] (by decide)).2.1
      "zz" (by decide) (by decide)

/-- C4 counterexample: `ServiceUnavailableException` is classified as
transient by the error handler, yet `TapeManager._retry_api_call`
propagates it immediately: with a schedule whose first attempt fails with
`ServiceUnavailableException` and whose second attempt would succeed, the
wrapper raises after the first attempt with no back-off delay (a retry
would have returned `ok`). -/
theorem c4_counterexample :
    handleAwsError ErrorKind.serviceUnavailable = true
    ∧ retryApiCall (fun i => if i = 0
        then Except.error ErrorKind.serviceUnavailable
        else Except.ok ())
      = (RunOutcome.raised ErrorKind.serviceUnavailable, []) := by
  constructor
  · rfl
  · rfl

/-- C4 (amended): calls wrapped by
`VirtualTapeManager._retry_with_backoff` retry a failure classified
transient by `_handle_aws_error` (rate limit or transient service error)
up to 3 attempts with delay `RETRY_DELAY * 2 ^ attempt` between attempts,
and propagate a non-transient (permanent or unknown) failure immediately
with no delay; calls wrapped by `TapeManager._retry_api_call` retry only
the rate-limit codes with the same schedule and propagate every other
failure, including transient service errors, immediately. -/
theorem c4_amended :
    (∀ (α : Type) (f : Nat → Except ErrorKind α) (e0 e1 e2 : ErrorKind),
      f 0 = Except.error e0 → f 1 = Except.error e1 → f 2 = Except.error e2 →
      handleAwsError e0 = true → handleAwsError e1 = true →
      handleAwsError e2 = true →
      retryWithBackoff f false
        = (RunOutcome.raised e2, [RETRY_DELAY * 2 ^ 0, RETRY_DELAY * 2 ^ 1]))
    ∧ (∀ (α : Type) (f : Nat → Except ErrorKind α) (e0 : ErrorKind) (a : α),
      f 0 = Except.error e0 → handleAwsError e0 = true → f 1 = Except.ok a →
      retryWithBackoff f false = (RunOutcome.ok a, [RETRY_DELAY * 2 ^ 0]))
    ∧ (∀ (α : Type) (f : Nat → Except ErrorKind α) (e : ErrorKind),
      f 0 = Except.error e → handleAwsError e = false →
      retryWithBackoff f false = (RunOutcome.raised e, []))
    ∧ (∀ (α : Type) (f : Nat → Except ErrorKind α) (e0 e1 e2 : ErrorKind),
      f 0 = Except.error e0 → f 1 = Except.error e1 → f 2 = Except.error e2 →
      e0.isRateLimit = true → e1.isRateLimit = true → e2.isRateLimit = true →
      retryApiCall f
        = (RunOutcome.raised e2, [RETRY_DELAY * 2 ^ 0, RETRY_DELAY * 2 ^ 1]))
    ∧ (∀ (α : Type) (f : Nat → Except ErrorKind α) (e : ErrorKind),
      f 0 = Except.error e → e.isRateLimit = false →
      retryApiCall f = (RunOutcome.raised e, [])) := by
  have hclient : ∀ e : ErrorKind, e.isRateLimit = true → e.isClientError = true := by
    intro e he
    cases e <;> simp_all [ErrorKind.isRateLimit, ErrorKind.isClientError]
  refine ⟨?_, ?_, ?_, ?_, ?_⟩
  · intro α f e0 e1 e2 h0 h1 h2 t0 t1 t2
    simp [retryWithBackoff, retryLoop, h0, h1, h2, t0, t1, t2]
  · intro α f e0 a h0 t0 h1
    simp [retryWithBackoff, retryLoop, h0, h1, t0]
  · intro α f e h0 he
    simp [retryWithBackoff, retryLoop, h0, he]
  · intro α f e0 e1 e2 h0 h1 h2 t0 t1 t2
    simp [retryApiCall, retryApiLoop, h0, h1, h2, t0, t1, t2,
      hclient e0 t0, hclient e1 t1, hclient e2 t2]
  · intro α f e h0 he
    cases hcl : e.isClientError <;>
      simp [retryApiCall, retryApiLoop, h0, he, hcl]

/-- Witness for C4 (amended): a schedule that is throttled on every
attempt makes `_retry_with_backoff` raise the last error after two
back-off delays of 2 and 4 seconds, and a schedule that hits an access
denial makes it raise immediately with no delay. -/
theorem c4_amended_witness :
    retryWithBackoff (fun _ => (Except.error ErrorKind.throttling :
        Except ErrorKind Unit)) false
      = (RunOutcome.raised ErrorKind.throttling,
         [RETRY_DELAY * 2 ^ 0, RETRY_DELAY * 2 ^ 1])
    ∧ retryWithBackoff (fun _ => (Except.error ErrorKind.accessDenied :
        Except ErrorKind Unit)) false
      = (RunOutcome.raised ErrorKind.accessDenied, []) := by
  constructor
  · exact c4_amended.1 Unit _ ErrorKind.throttling ErrorKind.throttling
      ErrorKind.throttling rfl rfl rfl (by decide) (by decide) (by decide)
  · exact c4_amended.2.2.1 Unit _ ErrorKind.accessDenied rfl (by decide)

/-- C1 counterexample: the claim says a `RETRIEVED` tape is deletable
(routed to the gateway delete), but `delete_specific_tapes` in execute
mode skips a `RETRIEVED` tape: no delete call is issued, no deletion is
counted, and a not-in-deletable-state error is recorded with a
`skipped_not_deletable` disposition. -/
theorem c1_counterexample :
    (deleteSpecificTapes c1World ["VTL1"] false).2.2 = []
    ∧ (deleteSpecificTapes c1World ["VTL1"] false).1.deletedTapes = 0
    ∧ (deleteSpecificTapes c1World ["VTL1"] false).1.tapesFound = 1
    ∧ (deleteSpecificTapes c1World ["VTL1"] false).1.errors
        = ["Tape VTL1 not in deletable state: RETRIEVED"]
    ∧ (deleteSpecificTapes c1World ["VTL1"] false).1.processedTapes
        = [{ identifier := "VTL1", arn := "arn-r1", barcode := "VTL1",
             status := Status.retrieved, actionTaken := "skipped_not_deletable",
             success := false }] := by
  refine ⟨by decide, by decide, by decide, by decide, by decide⟩

/-- C1 (amended): in the delete-expired flow, execute mode deletes a tape
exactly when its status is `AVAILABLE` or `RETRIEVED` (routed through the
owning gateway's delete call) or `ARCHIVED` (routed to
`delete_tape_archive` by the archived loop); every other status is
skipped with no delete call and a non-fatal not-in-deletable-state error.
In the delete-specific flow, the execute-mode guard is `AVAILABLE` or
`ARCHIVED` only: a `RETRIEVED` tape is also skipped with the
not-in-deletable-state error and no delete call. -/
theorem c1_amended :
    (∀ (st : World × ExpiredResults × List ApiCall) (t : TapeRec),
      t.status ≠ Status.available → t.status ≠ Status.retrieved →
      processActiveExpired false st t
        = (st.1, { st.2.1 with errors := st.2.1.errors ++ [notDeletableMsg t] },
           st.2.2))
    ∧ (∀ (st : World × ExpiredResults × List ApiCall) (t : TapeRec) (g : String),
      (st.1.tapes.map TapeRec.arn).Nodup → t ∈ st.1.tapes →
      t.owner = some g → g ∈ st.1.gateways →
      (t.status = Status.available ∨ t.status = Status.retrieved) →
      processActiveExpired false st t
        = (removeTape st.1 t.arn,
           { st.2.1 with deletedTapes := st.2.1.deletedTapes + 1 },
           st.2.2 ++ [ApiCall.deleteTape g t.arn]))
    ∧ (∀ (st : World × ExpiredResults × List ApiCall) (t : TapeRec),
      (st.1.tapes.map TapeRec.arn).Nodup → t ∈ st.1.tapes →
      t.status = Status.archived →
      processArchivedExpired false st t
        = (removeTape st.1 t.arn,
           { st.2.1 with deletedTapes := st.2.1.deletedTapes + 1 },
           st.2.2 ++ [ApiCall.deleteTapeArchive t.arn]))
    ∧ (∀ (byArn byBarcode : String → Option TapeRec)
        (st : World × SpecificResults × List ApiCall)
        (ident : String) (t : TapeRec),
      specificLookup byArn byBarcode (pyStrip ident) = some t →
      t.status ≠ Status.available → t.status ≠ Status.archived →
      processSpecificId false byArn byBarcode st ident
        = (st.1,
           { st.2.1 with tapesFound := st.2.1.tapesFound + 1,
                         errors := st.2.1.errors ++ [notDeletableMsg t],
                         processedTapes := st.2.1.processedTapes ++
                           [{ identifier := pyStrip ident, arn := t.arn,
                              barcode := t.barcode, status := t.status,
                              actionTaken := "skipped_not_deletable",
                              success := false }] },
           st.2.2))
    ∧ (∀ (byArn byBarcode : String → Option TapeRec)
        (st : World × SpecificResults × List ApiCall)
        (ident : String) (t : TapeRec) (g : String),
      specificLookup byArn byBarcode (pyStrip ident) = some t →
      (st.1.tapes.map TapeRec.arn).Nodup → t ∈ st.1.tapes →
      t.owner = some g → g ∈ st.1.gateways → t.status = Status.available →
      processSpecificId false byArn byBarcode st ident
        = (removeTape st.1 t.arn,
           { st.2.1 with tapesFound := st.2.1.tapesFound + 1,
                         deletedTapes := st.2.1.deletedTapes + 1,
                         processedTapes := st.2.1.processedTapes ++
                           [{ identifier := pyStrip ident, arn := t.arn,
                              barcode := t.barcode, status := t.status,
                              actionTaken := "deleted", success := true }] },
           st.2.2 ++ [ApiCall.deleteTape g t.arn]))
    ∧ (∀ (byArn byBarcode : String → Option TapeRec)
        (st : World × SpecificResults × List ApiCall)
        (ident : String) (t : TapeRec),
      specificLookup byArn byBarcode (pyStrip ident) = some t →
      (st.1.tapes.map TapeRec.arn).Nodup → t ∈ st.1.tapes →
      t.status = Status.archived →
      processSpecificId false byArn byBarcode st ident
        = (removeTape st.1 t.arn,
           { st.2.1 with tapesFound := st.2.1.tapesFound + 1,
                         deletedTapes := st.2.1.deletedTapes + 1,
                         processedTapes := st.2.1.processedTapes ++
                           [{ identifier := pyStrip ident, arn := t.arn,
                              barcode := t.barcode, status := t.status,
                              actionTaken := "deleted", success := true }] },
           st.2.2 ++ [ApiCall.deleteTapeArchive t.arn])) := by
  refine ⟨?_, ?_, ?_, ?_, ?_, ?_⟩
  · intro st t hsa hsr
    simp [processActiveExpired, hsa, hsr]
  · intro st t g hwf ht hown hg hst
    have hna : ¬ t.status = Status.archived := by
      rcases hst with h | h <;> rw [h] <;> intro hc <;> cases hc
    have hdel := deleteVirtualTape_gateway hwf ht hna hown hg
    rcases hst with h | h <;> simp [processActiveExpired, h, hdel]
  · intro st t hwf ht hst
    have hdel := deleteVirtualTape_archived hwf ht hst
    simp [processArchivedExpired, hdel]
  · intro byArn byBarcode st ident t hlk hsa hsr
    simp [processSpecificId, hlk, hsa, hsr]
  · intro byArn byBarcode st ident t g hlk hwf ht hown hg hst
    have hna : ¬ t.status = Status.archived := by
      rw [hst]; intro hc; cases hc
    have hdel := deleteVirtualTape_gateway hwf ht hna hown hg
    simp [processSpecificId, hlk, hst, hdel]
  · intro byArn byBarcode st ident t hlk hwf ht hst
    have hdel := deleteVirtualTape_archived hwf ht hst
    simp [processSpecificId, hlk, hst, hdel]

/-- Witness for C1 (amended): an `AVAILABLE` tape is deleted through its
gateway, an `ARCHIVED` tape through the shelf delete, and a `CREATING`
tape is skipped with the not-in-deletable-state error. -/
theorem c1_amended_witness :
    processActiveExpired false (c1WitnessWorld, c1EmptyResults, [])
        { arn := "arn-a1", barcode := "VTLA", status := Status.available,
          sizeBytes := 100, usedBytes := 10, created := some 0,
          owner := some "gw-1" }
      = (removeTape c1WitnessWorld "arn-a1",
         { c1EmptyResults with deletedTapes := 1 },
         [ApiCall.deleteTape "gw-1" "arn-a1"])
    ∧ processArchivedExpired false (c1WitnessWorld, c1EmptyResults, [])
        { arn := "arn-b1", barcode := "VTLB", status := Status.archived,
          sizeBytes := 100, usedBytes := 10, created := none, owner := none }
      = (removeTape c1WitnessWorld "arn-b1",
         { c1EmptyResults with deletedTapes := 1 },
         [ApiCall.deleteTapeArchive "arn-b1"])
    ∧ processActiveExpired false (c1WitnessWorld, c1EmptyResults, [])
        { arn := "arn-c1", barcode := "VTLC", status := Status.creating,
          sizeBytes := 100, usedBytes := 10, created := some 0,
          owner := some "gw-1" }
      = (c1WitnessWorld,
         { c1EmptyResults with
             errors := ["Tape VTLC not in deletable state: CREATING"] },
         []) := by
  refine ⟨?_, ?_, ?_⟩
  · have h := c1_amended.2.1 (c1WitnessWorld, c1EmptyResults, [])
      { arn := "arn-a1", barcode := "VTLA", status := Status.available,
        sizeBytes := 100, usedBytes := 10, created := some 0,
        owner := some "gw-1" } "gw-1" (by decide) (by decide) rfl (by decide)
      (Or.inl rfl)
    simpa using h
  · have h := c1_amended.2.2.1 (c1WitnessWorld, c1EmptyResults, [])
      { arn := "arn-b1", barcode := "VTLB", status := Status.archived,
        sizeBytes := 100, usedBytes := 10, created := none, owner := none }
      (by decide) (by decide) rfl
    simpa using h
  · have h := c1_amended.1 (c1WitnessWorld, c1EmptyResults, [])
      { arn := "arn-c1", barcode := "VTLC", status := Status.creating,
        sizeBytes := 100, usedBytes := 10, created := some 0,
        owner := some "gw-1" } (by decide) (by decide)
    simpa [notDeletableMsg, Status.render] using h

/-- Composition of the two dry-run loops of `delete_expired_tapes`: the
world and the call trace pass through unchanged. -/
theorem dry_frames (act arch : List TapeRec)
    (st : World × ExpiredResults × List ApiCall) :
    (arch.foldl (processArchivedExpired true)
        (act.foldl (processActiveExpired true) st)).1 = st.1
    ∧ (arch.foldl (processArchivedExpired true)
        (act.foldl (processActiveExpired true) st)).2.2 = st.2.2 := by
  obtain ⟨h1, h2⟩ := foldl_archived_dry_frame arch
    (act.foldl (processActiveExpired true) st)
  obtain ⟨h3, h4⟩ := foldl_active_dry_frame act st
  exact ⟨h1.trans h3, h2.trans h4⟩

/-- C5: a dry run of `VirtualTapeManager.delete_expired_tapes` issues no
mutating API call and leaves the remote inventory unchanged, so two
consecutive dry runs over the same inventory return identical results
(hence identical total / expired / deleted / failed counts); the same
holds for the tape_operations.py `delete_expired_tapes` pipeline under
any listing-failure schedule. -/
theorem c5_dry_run_idempotent (w : World) (d now : Int)
    (fail : Nat → Option ErrorKind) :
    (deleteExpiredTapes w d true now).2.2 = []
    ∧ (deleteExpiredTapes w d true now).2.1 = w
    ∧ deleteExpiredTapes ((deleteExpiredTapes w d true now).2.1) d true now
        = deleteExpiredTapes w d true now
    ∧ (toDeleteExpiredTapes w fail d true).2.2 = []
    ∧ (toDeleteExpiredTapes w fail d true).2.1 = w
    ∧ toDeleteExpiredTapes ((toDeleteExpiredTapes w fail d true).2.1) fail d true
        = toDeleteExpiredTapes w fail d true := by
  have key : ∀ w' : World, (deleteExpiredTapes w' d true now).2.2 = []
      ∧ (deleteExpiredTapes w' d true now).2.1 = w' := by
    intro w'
    simp only [deleteExpiredTapes]
    by_cases h : (listVirtualTapes w').isEmpty
    · rw [if_pos h]
      exact ⟨rfl, rfl⟩
    · rw [if_neg h]
      exact ⟨(dry_frames _ _ _).2, (dry_frames _ _ _).1⟩
  have keyT : ∀ w' : World, (toDeleteExpiredTapes w' fail d true).2.2 = []
      ∧ (toDeleteExpiredTapes w' fail d true).2.1 = w' := by
    intro w'
    simp only [toDeleteExpiredTapes]
    exact ⟨(foldl_toStep_dry_frame _ _).2, (foldl_toStep_dry_frame _ _).1⟩
  refine ⟨(key w).1, (key w).2, ?_, (keyT w).1, (keyT w).2, ?_⟩
  · rw [(key w).2]
  · rw [(keyT w).2]

/-- C6: the execute-mode active loop of `delete_expired_tapes` processes
the remaining tapes after any tape (the fold continues past every
element); a failed deletion of a deletable-status tape is degraded into a
failed-deletions increment plus an errors entry; and a `CREATING` tape
matching the age filter is skipped with an errors entry and no change to
the failed counter. -/
theorem c6_per_tape_failure :
    (∀ (st : World × ExpiredResults × List ApiCall) (t : TapeRec)
        (rest : List TapeRec),
      (t :: rest).foldl (processActiveExpired false) st
        = rest.foldl (processActiveExpired false) (processActiveExpired false st t))
    ∧ (∀ (st : World × ExpiredResults × List ApiCall) (t : TapeRec),
      (t.status = Status.available ∨ t.status = Status.retrieved) →
      (deleteVirtualTape st.1 t.arn).1 = false →
      processActiveExpired false st t
        = ((deleteVirtualTape st.1 t.arn).2.1,
           { st.2.1 with failedDeletions := st.2.1.failedDeletions + 1,
                         errors := st.2.1.errors ++
                           ["Failed to delete " ++ t.barcode] },
           st.2.2 ++ (deleteVirtualTape st.1 t.arn).2.2))
    ∧ (∀ (st : World × ExpiredResults × List ApiCall) (t : TapeRec),
      t.status = Status.creating →
      processActiveExpired false st t
        = (st.1, { st.2.1 with errors := st.2.1.errors ++ [notDeletableMsg t] },
           st.2.2)) := by
  refine ⟨?_, ?_, ?_⟩
  · intro st t rest
    rfl
  · intro st t hst hfail
    rcases hst with h | h <;> simp [processActiveExpired, h, hfail]
  · intro st t hst
    simp [processActiveExpired, hst]

/-- Witness for C6: processing the vanished tape fails, increments the
failed counter, records the error, and the fold over a following tape
continues from that state. -/
theorem c6_per_tape_failure_witness :
    processActiveExpired false (c6World, c6Results, []) c6Ghost
      = (c6World,
         { c6Results with failedDeletions := 1,
                          errors := ["Failed to delete GHOST"] },
         []) := by
  have h := c6_per_tape_failure.2.1 (c6World, c6Results, ([] : List ApiCall))
    c6Ghost (Or.inl rfl) (by decide)
  rw [h]
  decide

/-- C8: the dry-run branches of `delete_expired_tapes` and
`delete_specific_tapes` increment the deleted count for every expired
(respectively found) tape with no status check; concretely, a `CREATING`
tape that matches the age filter is counted as a would-delete in dry run
while execute mode skips it with a not-in-deletable-state error. -/
theorem c8_dry_run_counts :
    (∀ (st : World × ExpiredResults × List ApiCall) (t : TapeRec),
      processActiveExpired true st t
        = (st.1, { st.2.1 with deletedTapes := st.2.1.deletedTapes + 1 },
           st.2.2))
    ∧ (∀ (byArn byBarcode : String → Option TapeRec)
        (st : World × SpecificResults × List ApiCall)
        (ident : String) (t : TapeRec),
      specificLookup byArn byBarcode (pyStrip ident) = some t →
      processSpecificId true byArn byBarcode st ident
        = (st.1,
           { st.2.1 with tapesFound := st.2.1.tapesFound + 1,
                         deletedTapes := st.2.1.deletedTapes + 1,
                         processedTapes := st.2.1.processedTapes ++
                           [{ identifier := pyStrip ident, arn := t.arn,
                              barcode := t.barcode, status := t.status,
                              actionTaken := "would_delete", success := true }] },
           st.2.2))
    ∧ ((deleteExpiredTapes c8World 0 true 864000).1.deletedTapes = 1
       ∧ (deleteExpiredTapes c8World 0 true 864000).2.2 = []
       ∧ (deleteExpiredTapes c8World 0 false 864000).1.deletedTapes = 0
       ∧ (deleteExpiredTapes c8World 0 false 864000).1.errors
           = ["Tape VTLC not in deletable state: CREATING"]) := by
  refine ⟨?_, ?_, ?_⟩
  · intro st t
    simp [processActiveExpired]
  · intro byArn byBarcode st ident t hlk
    simp [processSpecificId, hlk]
  · refine ⟨by decide, by decide, by decide, by decide⟩

/-- Witness for C8: the dry-run branch of the identifier loop counts the
found `CREATING` tape as a would-delete. -/
theorem c8_dry_run_counts_witness :
    processSpecificId true (fun _ => some c8Tape) (fun _ => none)
        (c8World, c8Results, []) "VTLC"
      = (c8World,
         { c8Results with tapesFound := 1, deletedTapes := 1,
                          processedTapes :=
                            [{ identifier := "VTLC", arn := "arn-c8",
                               barcode := "VTLC", status := Status.creating,
                               actionTaken := "would_delete", success := true }] },
         []) := by
  have h := c8_dry_run_counts.2.1 (fun _ => some c8Tape) (fun _ => none)
    (c8World, c8Results, ([] : List ApiCall)) "VTLC" c8Tape rfl
  rw [h]
  decide

/-- C7 counterexample: when the discovery listing fails (every attempt
denied), the tape_operations.py `delete_expired_tapes` run short-circuits
with an empty result whose errors list is empty — the discovery error is
logged but NOT recorded in the result's errors list, contrary to the
claim. -/
theorem c7_counterexample :
    (toDeleteExpiredTapes c7World (fun _ => some ErrorKind.accessDenied)
        30 true).1.errors = []
    ∧ (toDeleteExpiredTapes c7World (fun _ => some ErrorKind.accessDenied)
        30 true).1
      = { totalTapes := 0, expiredTapes := 0, deleted := 0, failed := 0,
          errors := [] }
    ∧ (toDeleteExpiredTapes c7World (fun _ => some ErrorKind.accessDenied)
        30 true).2.2 = [] := by
  refine ⟨by decide, by decide, by decide⟩

/-- C7 (amended): a discovery failure short-circuits the run, but the
discovery error is not recorded in the errors list: in the
tape_operations.py pipeline a raised listing error yields the empty result
with an empty errors list and no API calls; in
`VirtualTapeManager.delete_specific_tapes` an empty discovery returns
early recording only the generic no-tapes message; and in the main script
an API failure during discovery exits the process (the listing is wrapped
with `critical=True`), returning no result at all. -/
theorem c7_amended :
    (∀ (w : World) (fail : Nat → Option ErrorKind) (d : Int) (dr : Bool)
        (e : ErrorKind),
      (retryApiCall (listTapesAttempt w fail)).1 = RunOutcome.raised e →
      toDeleteExpiredTapes w fail d dr
        = ({ totalTapes := 0, expiredTapes := 0, deleted := 0, failed := 0,
             errors := [] }, w, []))
    ∧ (∀ (w : World) (ids : List String) (dr : Bool), w.tapes = [] →
      deleteSpecificTapes w ids dr
        = ({ totalRequested := ids.length, tapesFound := 0, tapesNotFound := 0,
             deletedTapes := 0, failedDeletions := 0,
             errors := ["No virtual tapes found in the system"],
             notFoundTapes := [], processedTapes := [] }, w, []))
    ∧ (∀ (w : World) (fail : Nat → Option ErrorKind) (e : ErrorKind),
      fail 0 = some e → handleAwsError e = false →
      vtListTapesOutcome w fail = RunOutcome.exited) := by
  refine ⟨?_, ?_, ?_⟩
  · intro w fail d dr e h
    simp [toDeleteExpiredTapes, tmListTapes, h]
  · intro w ids dr h
    simp [deleteSpecificTapes, listVirtualTapes, listTapesApi, h]
  · intro w fail e h0 he
    simp [vtListTapesOutcome, retryWithBackoff, retryLoop, listTapesAttempt,
      h0, he]

/-- Witness for C7 (amended): under an always-denied listing the
tape_operations.py run returns the empty errorless result, an empty
inventory makes `delete_specific_tapes` record only the generic message,
and the main script's discovery exits the process. -/
theorem c7_amended_witness :
    toDeleteExpiredTapes c7World (fun _ => some ErrorKind.accessDenied) 30 false
      = ({ totalTapes := 0, expiredTapes := 0, deleted := 0, failed := 0,
           errors := [] }, c7World, [])
    ∧ deleteSpecificTapes { gateways := [], tapes := [] } ["VTL1"] false
      = ({ totalRequested := 1, tapesFound := 0, tapesNotFound := 0,
           deletedTapes := 0, failedDeletions := 0,
           errors := ["No virtual tapes found in the system"],
           notFoundTapes := [], processedTapes := [] },
         { gateways := [], tapes := [] }, [])
    ∧ vtListTapesOutcome c7World (fun _ => some ErrorKind.accessDenied)
      = RunOutcome.exited := by
  refine ⟨?_, ?_, ?_⟩
  · exact c7_amended.1 c7World (fun _ => some ErrorKind.accessDenied) 30 false
      ErrorKind.accessDenied (by decide)
  · exact c7_amended.2.1 { gateways := [], tapes := [] } ["VTL1"] false rfl
  · exact c7_amended.2.2 c7World (fun _ => some ErrorKind.accessDenied)
      ErrorKind.accessDenied rfl (by decide)

/-- Counting invariant of the tape_operations.py loop: each `ARCHIVED`
tape adds one to the expired count and one to deleted-plus-failed; other
tapes change nothing. -/
theorem foldl_toStep_counts (dr : Bool) (l : List TapeRec) :
    ∀ st : World × ToResults × List ApiCall,
      (l.foldl (toStep dr) st).2.1.expiredTapes
        = st.2.1.expiredTapes
          + (l.filter (fun t => t.status == Status.archived)).length
      ∧ (l.foldl (toStep dr) st).2.1.deleted
          + (l.foldl (toStep dr) st).2.1.failed
        = st.2.1.deleted + st.2.1.failed
          + (l.filter (fun t => t.status == Status.archived)).length := by
  induction l with
  | nil => intro st; simp
  | cons t rest ih =>
    intro st
    rw [List.foldl_cons]
    obtain ⟨h1, h2⟩ := ih (toStep dr st t)
    by_cases h : (t.status == Status.archived) = true
    · have hstep : (toStep dr st t).2.1.expiredTapes = st.2.1.expiredTapes + 1
          ∧ (toStep dr st t).2.1.deleted + (toStep dr st t).2.1.failed
            = st.2.1.deleted + st.2.1.failed + 1 := by
        cases dr
        · by_cases hres : (tmDeleteTape st.1 t.arn t.status).1 = true
          · constructor <;> (simp [toStep, h, hres]; try omega)
          · constructor <;> (simp [toStep, h, hres]; try omega)
        · constructor <;> (simp [toStep, h]; try omega)
      rw [@List.filter_cons_of_pos TapeRec
        (fun u => u.status == Status.archived) t rest h]
      simp only [List.length_cons]
      exact ⟨by omega, by omega⟩
    · have hstep : toStep dr st t = st := by
        simp [toStep, h]
      rw [hstep, @List.filter_cons_of_neg TapeRec
        (fun u => u.status == Status.archived) t rest h]
      exact ⟨(ih st).1, (ih st).2⟩

/-- C9: the tape_operations.py `delete_expired_tapes` does not depend on
its `expiry_days` argument — for any two thresholds the full returned
results, final world and call trace are identical — and only tapes with
status `ARCHIVED` are ever counted: the expired count equals the number of
archived tapes listed, as does deleted plus failed. -/
theorem c9_expiry_days_independent (w : World) (fail : Nat → Option ErrorKind)
    (d1 d2 : Int) (dr : Bool) :
    toDeleteExpiredTapes w fail d1 dr = toDeleteExpiredTapes w fail d2 dr
    ∧ (toDeleteExpiredTapes w fail d1 dr).1.expiredTapes
        = ((tmListTapes w fail none).filter
            (fun t => t.status == Status.archived)).length
    ∧ (toDeleteExpiredTapes w fail d1 dr).1.deleted
        + (toDeleteExpiredTapes w fail d1 dr).1.failed
        = ((tmListTapes w fail none).filter
            (fun t => t.status == Status.archived)).length := by
  refine ⟨rfl, ?_, ?_⟩
  · simp only [toDeleteExpiredTapes]
    rw [(foldl_toStep_counts dr _ _).1]
    simp
  · simp only [toDeleteExpiredTapes]
    rw [(foldl_toStep_counts dr _ _).2]
    simp

/-- Counting invariant of the identifier loop of `delete_specific_tapes`:
each identifier adds one to found-plus-not-found, the processed list grows
exactly with the found counter, and the requested total never changes. -/
theorem foldl_specific_counts (dr : Bool)
    (byArn byBarcode : String → Option TapeRec) (ids : List String) :
    ∀ st : World × SpecificResults × List ApiCall,
      (ids.foldl (processSpecificId dr byArn byBarcode) st).2.1.tapesFound
        + (ids.foldl (processSpecificId dr byArn byBarcode) st).2.1.tapesNotFound
        = st.2.1.tapesFound + st.2.1.tapesNotFound + ids.length
      ∧ (ids.foldl (processSpecificId dr byArn byBarcode) st).2.1.processedTapes.length
          + st.2.1.tapesFound
        = st.2.1.processedTapes.length
          + (ids.foldl (processSpecificId dr byArn byBarcode) st).2.1.tapesFound
      ∧ (ids.foldl (processSpecificId dr byArn byBarcode) st).2.1.totalRequested
        = st.2.1.totalRequested := by
  induction ids with
  | nil => intro st; exact ⟨by simp, by simp, rfl⟩
  | cons i rest ih =>
    intro st
    rw [List.foldl_cons]
    obtain ⟨h1, h2, h3⟩ := ih (processSpecificId dr byArn byBarcode st i)
    have hstep :
        ((processSpecificId dr byArn byBarcode st i).2.1.tapesFound
            + (processSpecificId dr byArn byBarcode st i).2.1.tapesNotFound
            = st.2.1.tapesFound + st.2.1.tapesNotFound + 1)
        ∧ ((processSpecificId dr byArn byBarcode st i).2.1.processedTapes.length
            + st.2.1.tapesFound
            = st.2.1.processedTapes.length
              + (processSpecificId dr byArn byBarcode st i).2.1.tapesFound)
        ∧ ((processSpecificId dr byArn byBarcode st i).2.1.totalRequested
            = st.2.1.totalRequested) := by
      cases hlk : specificLookup byArn byBarcode (pyStrip i) with
      | none =>
        refine ⟨?_, ?_, ?_⟩ <;> (simp [processSpecificId, hlk]; try omega)
      | some t =>
        cases dr
        · by_cases hst : (t.status == Status.available
              || t.status == Status.archived) = true
          · by_cases hres : (deleteVirtualTape st.1 t.arn).1 = true
            · refine ⟨?_, ?_, ?_⟩ <;>
                (simp [processSpecificId, hlk, hst, hres]; try omega)
            · refine ⟨?_, ?_, ?_⟩ <;>
                (simp [processSpecificId, hlk, hst, hres]; try omega)
          · refine ⟨?_, ?_, ?_⟩ <;>
              (simp [processSpecificId, hlk, hst]; try omega)
        · refine ⟨?_, ?_, ?_⟩ <;>
            (simp [processSpecificId, hlk]; try omega)
    obtain ⟨hs1, hs2, hs3⟩ := hstep
    simp only [List.length_cons]
    exact ⟨by omega, by omega, h3.trans hs3⟩

/-- Sum form of the counting invariant, phrased on the initial accumulator
`delete_specific_tapes` builds. -/
theorem specific_fold_sum (dr : Bool)
    (byArn byBarcode : String → Option TapeRec) (ids : List String)
    (w0 : World) :
    ((ids.foldl (processSpecificId dr byArn byBarcode)
        (w0, { totalRequested := ids.length, tapesFound := 0,
               tapesNotFound := 0, deletedTapes := 0, failedDeletions := 0,
               errors := [], notFoundTapes := [],
               processedTapes := [] }, [])).2.1.tapesFound
      + (ids.foldl (processSpecificId dr byArn byBarcode)
        (w0, { totalRequested := ids.length, tapesFound := 0,
               tapesNotFound := 0, deletedTapes := 0, failedDeletions := 0,
               errors := [], notFoundTapes := [],
               processedTapes := [] }, [])).2.1.tapesNotFound
      = (ids.foldl (processSpecificId dr byArn byBarcode)
        (w0, { totalRequested := ids.length, tapesFound := 0,
               tapesNotFound := 0, deletedTapes := 0, failedDeletions := 0,
               errors := [], notFoundTapes := [],
               processedTapes := [] }, [])).2.1.totalRequested)
    ∧ (ids.foldl (processSpecificId dr byArn byBarcode)
        (w0, { totalRequested := ids.length, tapesFound := 0,
               tapesNotFound := 0, deletedTapes := 0, failedDeletions := 0,
               errors := [], notFoundTapes := [],
               processedTapes := [] }, [])).2.1.processedTapes.length
      = (ids.foldl (processSpecificId dr byArn byBarcode)
        (w0, { totalRequested := ids.length, tapesFound := 0,
               tapesNotFound := 0, deletedTapes := 0, failedDeletions := 0,
               errors := [], notFoundTapes := [],
               processedTapes := [] }, [])).2.1.tapesFound := by
  obtain ⟨h1, h2, h3⟩ := foldl_specific_counts dr byArn byBarcode ids
    (w0, { totalRequested := ids.length, tapesFound := 0, tapesNotFound := 0,
           deletedTapes := 0, failedDeletions := 0, errors := [],
           notFoundTapes := [], processedTapes := [] }, [])
  simp only [List.length_nil] at h1 h2 h3
  constructor <;> omega

/-- C10 counterexample: with an empty inventory, `delete_specific_tapes`
returns early before the identifier loop, so a one-identifier request
yields `total_tapes_requested = 1` while both `tapes_found` and
`tapes_not_found` stay 0, violating the claimed sum equation. -/
theorem c10_counterexample :
    (deleteSpecificTapes { gateways := [], tapes := [] } ["VTL1"]
        true).1.totalRequested = 1
    ∧ (deleteSpecificTapes { gateways := [], tapes := [] } ["VTL1"]
        true).1.tapesFound = 0
    ∧ (deleteSpecificTapes { gateways := [], tapes := [] } ["VTL1"]
        true).1.tapesNotFound = 0
    ∧ (deleteSpecificTapes { gateways := [], tapes := [] } ["VTL1"]
          true).1.tapesFound
        + (deleteSpecificTapes { gateways := [], tapes := [] } ["VTL1"]
          true).1.tapesNotFound
      ≠ (deleteSpecificTapes { gateways := [], tapes := [] } ["VTL1"]
          true).1.totalRequested := by
  refine ⟨by decide, by decide, by decide, by decide⟩

/-- C10 (amended): whenever the discovery listing returns at least one
tape, every identifier increments exactly one of `tapes_found` /
`tapes_not_found` (stated per loop iteration), so their sum equals
`total_tapes_requested`, and the processed-tapes list holds exactly one
disposition record per found identifier; when the listing is empty the
function returns early with both counters 0 regardless of the number
requested. -/
theorem c10_amended (w : World) (ids : List String) (dr : Bool)
    (h : w.tapes ≠ []) :
    ((deleteSpecificTapes w ids dr).1.tapesFound
        + (deleteSpecificTapes w ids dr).1.tapesNotFound
      = (deleteSpecificTapes w ids dr).1.totalRequested)
    ∧ (deleteSpecificTapes w ids dr).1.processedTapes.length
        = (deleteSpecificTapes w ids dr).1.tapesFound
    ∧ (∀ (byArn byBarcode : String → Option TapeRec)
        (st : World × SpecificResults × List ApiCall) (i : String),
      ((processSpecificId dr byArn byBarcode st i).2.1.tapesFound
          = st.2.1.tapesFound + 1
        ∧ (processSpecificId dr byArn byBarcode st i).2.1.tapesNotFound
          = st.2.1.tapesNotFound)
      ∨ ((processSpecificId dr byArn byBarcode st i).2.1.tapesFound
          = st.2.1.tapesFound
        ∧ (processSpecificId dr byArn byBarcode st i).2.1.tapesNotFound
          = st.2.1.tapesNotFound + 1)) := by
  have hne : ¬ (listVirtualTapes w).isEmpty = true := by
    simp [listVirtualTapes, listTapesApi, h]
  refine ⟨?_, ?_, ?_⟩
  · simp only [deleteSpecificTapes]
    rw [if_neg hne]
    exact (specific_fold_sum dr _ _ ids w).1
  · simp only [deleteSpecificTapes]
    rw [if_neg hne]
    exact (specific_fold_sum dr _ _ ids w).2
  · intro byArn byBarcode st i
    cases hlk : specificLookup byArn byBarcode (pyStrip i) with
    | none =>
      right
      constructor <;> simp [processSpecificId, hlk]
    | some t =>
      left
      cases dr
      · by_cases hst : (t.status == Status.available
            || t.status == Status.archived) = true
        · by_cases hres : (deleteVirtualTape st.1 t.arn).1 = true
          · constructor <;> simp [processSpecificId, hlk, hst, hres]
          · constructor <;> simp [processSpecificId, hlk, hst, hres]
        · constructor <;> simp [processSpecificId, hlk, hst]
      · constructor <;> simp [processSpecificId, hlk]

/-- Witness for C10 (amended): over a non-empty inventory, a two-element
request (one hit, one miss) satisfies the sum equation and the
one-record-per-found-tape equation. -/
theorem c10_amended_witness :
    ((deleteSpecificTapes c10World ["VTL1", "nope"] true).1.tapesFound
        + (deleteSpecificTapes c10World ["VTL1", "nope"] true).1.tapesNotFound
      = (deleteSpecificTapes c10World ["VTL1", "nope"] true).1.totalRequested)
    ∧ (deleteSpecificTapes c10World ["VTL1", "nope"] true).1.processedTapes.length
        = (deleteSpecificTapes c10World ["VTL1", "nope"] true).1.tapesFound := by
  have h := c10_amended c10World ["VTL1", "nope"] true (by decide)
  exact ⟨h.1, h.2.1⟩

end TapeCleanup
